import Mathlib

/-!
Verification development for the ts-chatbot-ai repository.

The repository is a small Angular chat client.  The core under
specification is:

* `ChatService.sendMessage` (src/app/services/chat.service.ts): one POST
  per user message, a 30-second timeout, and a `catchError` handler that
  classifies every failure into one of six user-facing messages, logging
  the raw error first.
* `ChatComponent` (chat.component.ts): the conversation manager — message
  list, input buffer, `isSending` / `isTyping` flags, session id, the
  day-separator bookkeeping in `addMessage`, and `formatDateLabel` /
  `formatTime` rendering helpers.

Machine integers do not occur; timestamps are modelled as epoch
milliseconds (`Int`), and the browser's local-time projection of an
instant is an abstract `Timezone` parameter.  JavaScript values that may
be `undefined` are modelled as `Option`.
-/

namespace ChatApp

/-! ## Request gateway error model (chat.service.ts) -/

/-- Body attached to an Angular `HttpErrorResponse`: either a browser-side
`ErrorEvent` (client/network fault) or a server response body whose optional
`error` field is the backend-supplied detail (absent models both a missing
field and a non-string body). -/
inductive ErrorBody
| errorEvent
| serverBody (errorField : Option String)
deriving DecidableEq, Repr

/-- The parts of Angular's `HttpErrorResponse` read by the service:
`status` and the `error` body. -/
structure HttpErrorResponse where
  status : Nat
  error : ErrorBody
deriving DecidableEq, Repr

/-- A raw error reaching the service's `catchError`: the RxJS
`TimeoutError` (matched by `error.name === 'TimeoutError'`), an
`HttpErrorResponse`, or anything else. -/
inductive RawError
| timeoutError
| httpError (resp : HttpErrorResponse)
| other
deriving DecidableEq, Repr

/-- Embedding of the `errorMessage` computation inside
`ChatService.sendMessage`'s `catchError` (chat.service.ts lines 92-118).
Branch order follows the source: timeout name check, then for an
`HttpErrorResponse` the `ErrorEvent` test, `status === 0`,
`400 <= status < 500` (where `error.error?.error || default` treats an
absent or empty field as falsy), `status >= 500`, and the final fallback. -/
def classifyError : RawError → String
  | .timeoutError => "Request timed out. Please try again."
  | .httpError r =>
    match r.error with
    | .errorEvent => "Unable to connect to the server. Please check your connection."
    | .serverBody errorField =>
      if r.status = 0 then
        "Unable to reach the server. Please ensure the backend is running."
      else if 400 ≤ r.status ∧ r.status < 500 then
        match errorField with
        | some s => if s = "" then "Invalid request. Please try again." else s
        | none => "Invalid request. Please try again."
      else if 500 ≤ r.status then
        "Server error. Please try again later."
      else
        "An unexpected error occurred. Please try again."
  | .other => "An unexpected error occurred. Please try again."

/-- A JavaScript `Error` object as far as the component reads it: its
`message` string. -/
structure ErrorObj where
  message : String
deriving DecidableEq, Repr

/-- Result of the service's `catchError` handler: the raw error is passed to
`console.error` (the `logged` field), and a fresh `Error` carrying the
classified message is thrown to the subscriber (the `thrown` field). -/
structure HandledError where
  logged : RawError
  thrown : ErrorObj
deriving DecidableEq, Repr

/-- Embedding of the whole `catchError` callback: classify, log the raw
error, throw `new Error(errorMessage)`. -/
def catchErrorHandler (e : RawError) : HandledError :=
  { logged := e, thrown := { message := classifyError e } }

/-! ### Spec-side classification table (section 4.1 of the specification) -/

/-- The closed six-category failure taxonomy of the specification. -/
inductive ErrorCategory
| clientNetwork
| unreachable
| clientError
| serverError
| timedOut
| unknownError
deriving DecidableEq, Repr

/-- Modelled from the spec: the condition column of the classification
table — timeout elapsed; browser-level network error object; transport
failure with no reachable response (status 0); status in [400,500);
status ≥ 500; anything else unrecognized. -/
def classifyCategory : RawError → ErrorCategory
  | .timeoutError => .timedOut
  | .httpError r =>
    match r.error with
    | .errorEvent => .clientNetwork
    | .serverBody _ =>
      if r.status = 0 then .unreachable
      else if 400 ≤ r.status ∧ r.status < 500 then .clientError
      else if 500 ≤ r.status then .serverError
      else .unknownError
  | .other => .unknownError

/-- The server-supplied `error` body field of a raw error, when there is
one. -/
def bodyErrorField : RawError → Option String
  | .httpError ⟨_, .serverBody b⟩ => b
  | _ => none

/-- Modelled from the spec: the user-facing message column of the
classification table; the `ClientError` row takes the body's `error` field
if present and non-empty, else the fixed fallback. -/
def categoryMessage : ErrorCategory → Option String → String
  | .clientNetwork, _ => "Unable to connect to the server. Please check your connection."
  | .unreachable, _ => "Unable to reach the server. Please ensure the backend is running."
  | .clientError, body =>
    match body with
    | some s => if s = "" then "Invalid request. Please try again." else s
    | none => "Invalid request. Please try again."
  | .serverError, _ => "Server error. Please try again later."
  | .timedOut, _ => "Request timed out. Please try again."
  | .unknownError, _ => "An unexpected error occurred. Please try again."

/-! ## Time model

JavaScript `Date` values are modelled as epoch milliseconds (`Int`).  The
browser's local-time projection (what `toDateString`, `getHours`,
`getMinutes` read) is an abstract `Timezone` parameter; two instants have
equal `toDateString` renderings exactly when they project to the same
local calendar date. -/

/-- A local calendar date, the information content of
`Date.prototype.toDateString()`. `month` is the JavaScript 0-based month
index. -/
structure CalendarDate where
  year : Int
  month : Nat
  day : Int
deriving DecidableEq, Repr

/-- The browser's local-time view of epoch-millisecond instants. -/
structure Timezone where
  localDate : Int → CalendarDate
  localHour : Int → Nat
  localMinute : Int → Nat

/-- The en-US short month names used by
`toLocaleDateString('en-US', { month: 'short', ... })`. -/
def monthNames : List String :=
  ["Jan", "Feb", "Mar", "Apr", "May", "Jun",
   "Jul", "Aug", "Sep", "Oct", "Nov", "Dec"]

/-- Rendering of `toLocaleDateString('en-US', { month: 'short',
day: 'numeric', year: 'numeric' })`, e.g. "Jan 15, 2024". -/
def toLocaleDateStringEnUS (d : CalendarDate) : String :=
  monthNames.getD d.month "" ++ " " ++ toString d.day ++ ", " ++ toString d.year

/-- Embedding of `ChatComponent.formatDateLabel`: compares the message
instant's local date with today's and with that of the instant exactly
86,400,000 ms before now (`new Date(Date.now() - 86400000)`), else renders
the en-US date. -/
def formatDateLabel (tz : Timezone) (nowMs : Int) (dateMs : Int) : String :=
  if tz.localDate dateMs = tz.localDate nowMs then "Today"
  else if tz.localDate dateMs = tz.localDate (nowMs - 86400000) then "Yesterday"
  else toLocaleDateStringEnUS (tz.localDate dateMs)

/-- The `padStart(2, '0')` of a decimal-rendered natural number. -/
def padTwo (n : Nat) : String :=
  if n < 10 then "0" ++ toString n else toString n

/-- Embedding of `ChatComponent.formatTime`: zero-padded 24-hour "HH:MM". -/
def formatTime (tz : Timezone) (t : Int) : String :=
  padTwo (tz.localHour t) ++ ":" ++ padTwo (tz.localMinute t)

/-! ## Data model (chat.model.ts) -/

/-- The two permitted `senderId` values. -/
inductive SenderId
| user
| ai
deriving DecidableEq, Repr

/-- The `Message` interface.  `content` is `Option String` because the
component's success handler stores `response.message`, a property the
`ChatResponse` interface does not declare, so the runtime value can be
undefined (`none`); the interface itself requires a string (see
`isMessage`).  `isNewDay` and `dateLabel` are optional fields, absent
(`none`) unless set by `addMessage`. -/
structure Message where
  id : String
  senderId : SenderId
  content : Option String
  timestamp : Int
  time : String
  isNewDay : Option Bool := none
  dateLabel : Option String := none
deriving DecidableEq, Repr

/-- The `isMessage` type guard of chat.model.ts.  In this embedding every
field other than `content` is well-typed by construction; the guard's
residual runtime content is the `typeof obj.content === 'string'` check,
which fails exactly when `content` is undefined. -/
def isMessage (m : Message) : Bool :=
  m.content.isSome

/-- The `ChatRequest` interface: the POST body `{message, session_id}`. -/
structure ChatRequest where
  message : String
  session_id : String
deriving DecidableEq, Repr

/-- The `ChatResponse` interface: the success body `{response: string}`. -/
structure ChatResponse where
  response : String
deriving DecidableEq, Repr

/-- The component's success callback reads `response.message`.
`ChatResponse` declares no `message` property (chat.model.ts declares only
`response`), so this property access yields undefined at runtime,
modelled as `none`. -/
def responseMessageField (_ : ChatResponse) : Option String := none

/-! ## Conversation manager state (chat.component.ts) -/

/-- The component's fields that the scoped core reads and writes. -/
structure ChatState where
  messages : List Message
  messageText : String
  isTyping : Bool
  isSending : Bool
  sessionId : String
  shouldScroll : Bool
deriving Repr

/-- The component's field initializers. -/
def initState : ChatState :=
  { messages := [], messageText := "", isTyping := false,
    isSending := false, sessionId := "", shouldScroll := false }

/-- Binding the input field: overwrites the buffer verbatim. -/
def setInput (s : String) (st : ChatState) : ChatState :=
  { st with messageText := s }

/-- Leading whitespace characters dropped from a character list. -/
def dropWhitespaceLead : List Char → List Char
  | [] => []
  | c :: cs => if c.isWhitespace then dropWhitespaceLead cs else c :: cs

/-- Embedding of JavaScript `String.prototype.trim()`: whitespace removed
from both ends. -/
def jsTrim (s : String) : String :=
  String.mk (dropWhitespaceLead (dropWhitespaceLead s.data.reverse).reverse)

/-- Embedding of `ChatComponent.canSend`. -/
def canSend (st : ChatState) : Bool :=
  decide (0 < (jsTrim st.messageText).length) && !st.isSending

/-- The message actually pushed by `addMessage`: the incoming message,
with `isNewDay`/`dateLabel` set when the list was empty or the local
calendar date changed relative to the current last message. -/
def decorate (tz : Timezone) (nowMs : Int) (msgs : List Message) (m : Message) : Message :=
  match msgs.getLast? with
  | some lastMessage =>
    if tz.localDate lastMessage.timestamp = tz.localDate m.timestamp then m
    else { m with isNewDay := some true,
                  dateLabel := some (formatDateLabel tz nowMs m.timestamp) }
  | none =>
    { m with isNewDay := some true,
             dateLabel := some (formatDateLabel tz nowMs m.timestamp) }

/-- Embedding of `ChatComponent.addMessage`: decorate against the current
last message, push, and request a scroll.  `nowMs` is the wall-clock
instant at insertion, read by `formatDateLabel`. -/
def addMessage (tz : Timezone) (nowMs : Int) (st : ChatState) (m : Message) : ChatState :=
  { st with messages := st.messages ++ [decorate tz nowMs st.messages m],
            shouldScroll := true }

/-- Embedding of the synchronous prefix of `ChatComponent.sendMessage`
(everything up to and including issuing the gateway call): validate, trim,
set the busy flags, append the user message, clear the buffer, and call
`ChatService.sendMessage(trimmed, sessionId)`.  `now1` is the wall clock
at submission and `uid` the generated message id.  Returns the new state
and the issued request, or `none` when rejected. -/
def sendMessageSync (tz : Timezone) (now1 : Int) (uid : String) (st : ChatState) :
    ChatState × Option ChatRequest :=
  if canSend st then
    let trimmedMessage := jsTrim st.messageText
    let st1 := { st with isSending := true, isTyping := true }
    let userMessage : Message :=
      { id := uid, senderId := .user, content := some trimmedMessage,
        timestamp := now1, time := formatTime tz now1 }
    let st2 := addMessage tz now1 st1 userMessage
    let st3 := { st2 with messageText := "" }
    (st3, some { message := trimmedMessage, session_id := st.sessionId })
  else
    (st, none)

/-- Embedding of the subscription's `next` callback: build the assistant
message (whose content is the undefined `response.message` read), append
it, and reset the busy flags.  `now2` is the wall clock at receipt. -/
def onReply (tz : Timezone) (now2 : Int) (aid : String) (response : ChatResponse)
    (st : ChatState) : ChatState :=
  let aiMessage : Message :=
    { id := aid, senderId := .ai, content := responseMessageField response,
      timestamp := now2, time := formatTime tz now2 }
  let st1 := addMessage tz now2 st aiMessage
  { st1 with isTyping := false, isSending := false }

/-- A PrimeNG toast as produced by `MessageService.add`. -/
structure Toast where
  severity : String
  summary : String
  detail : String
  life : Nat
deriving DecidableEq, Repr

/-- Embedding of `ChatComponent.handleError`: the toast it raises, with
`error.message || fallback` modelled by the empty-string test (the empty
string is the only falsy string). -/
def handleError (error : ErrorObj) : Toast :=
  let errorMessage :=
    if error.message = "" then "An unexpected error occurred. Please try again."
    else error.message
  { severity := "error", summary := "Error", detail := errorMessage, life := 5000 }

/-- Embedding of the subscription's `error` callback: raise the toast via
`handleError`, then reset the busy flags. -/
def onError (error : ErrorObj) (st : ChatState) : ChatState × Toast :=
  ({ st with isTyping := false, isSending := false }, handleError error)

/-- How one gateway call resolves: the parsed success body, or a raw
failure that the service's `catchError` will classify. -/
inductive GatewayOutcome
| success (response : ChatResponse)
| failure (raw : RawError)

/-- Observable effects of one full submission cycle: the final component
state, the gateway requests issued (zero or one), and the toasts raised
(zero or one). -/
structure CycleResult where
  state : ChatState
  calls : List ChatRequest
  toasts : List Toast

/-- One complete submission cycle: the synchronous prefix of
`sendMessage`, then — when a call was issued — the `next` or `error`
callback for the given outcome, the latter receiving the `Error` thrown
by the service's `catchError`. -/
def submitCycle (tz : Timezone) (now1 : Int) (uid : String) (now2 : Int) (aid : String)
    (out : GatewayOutcome) (st : ChatState) : CycleResult :=
  match sendMessageSync tz now1 uid st with
  | (st1, none) => { state := st1, calls := [], toasts := [] }
  | (st1, some req) =>
    match out with
    | .success resp =>
      { state := onReply tz now2 aid resp st1, calls := [req], toasts := [] }
    | .failure raw =>
      let handled := catchErrorHandler raw
      let (st2, toast) := onError handled.thrown st1
      { state := st2, calls := [req], toasts := [toast] }

/-! ## Session identifier (chat.service.ts) -/

/-- Hex digit character of a nibble, lowercase, as produced by
`crypto.randomUUID`. -/
def nibbleToHex (n : Nat) : Char :=
  if n < 10 then Char.ofNat (48 + n) else Char.ofNat (87 + n)

/-- The i-th random nibble drawn from the random source `r`. -/
def nib (r : Nat) (i : Nat) : Char :=
  nibbleToHex (r / 16 ^ i % 16)

/-- The variant nibble: two random bits under a fixed `10` prefix, so one
of 8, 9, a, b. -/
def variantHex (r : Nat) : Char :=
  nibbleToHex (8 + r / 16 ^ 30 % 4)

/-- Modelled from the spec: `crypto.randomUUID` (a platform primitive, not
repository code) returns an RFC 4122 version-4 UUID built from a
cryptographically sound random source — 32 lowercase hex digits grouped
8-4-4-4-12 with the version nibble fixed to 4 and the variant nibble in
{8, 9, a, b}.  `r` stands for the drawn random bits. -/
def randomUUID (r : Nat) : String :=
  String.mk
    [nib r 0, nib r 1, nib r 2, nib r 3, nib r 4, nib r 5, nib r 6, nib r 7,
     '-', nib r 8, nib r 9, nib r 10, nib r 11,
     '-', '4', nib r 12, nib r 13, nib r 14,
     '-', variantHex r, nib r 15, nib r 16, nib r 17,
     '-', nib r 18, nib r 19, nib r 20, nib r 21, nib r 22, nib r 23,
     nib r 24, nib r 25, nib r 26, nib r 27, nib r 28, nib r 29]

/-- Embedding of `ChatService.generateSessionId`, which delegates to
`crypto.randomUUID`. -/
def generateSessionId (r : Nat) : String :=
  randomUUID r

/-- The `ChatService` instance state: the session id generated once in the
constructor. -/
structure ChatService where
  sessionId : String
deriving Repr

/-- Embedding of `ChatService.getSessionId`. -/
def ChatService.getSessionId (svc : ChatService) : String :=
  svc.sessionId

/-- Embedding of `ChatComponent.ngOnInit`: copy the service's session id
into the component. -/
def ngOnInit (svc : ChatService) (st : ChatState) : ChatState :=
  { st with sessionId := svc.getSessionId }

/-- Lowercase hexadecimal digit test. -/
def isLowerHexDigit (c : Char) : Bool :=
  c.isDigit || ('a' ≤ c && c ≤ 'f')

/-- UUIDv4 variant nibble test. -/
def isVariantHexDigit (c : Char) : Bool :=
  c == '8' || c == '9' || c == 'a' || c == 'b'

/-- The UUID version-4 textual pattern: 8-4-4-4-12 hex digits with
version nibble 4 and variant nibble in {8, 9, a, b}. -/
def matchesUUIDv4 (s : String) : Bool :=
  match s.data with
  | a0 :: a1 :: a2 :: a3 :: a4 :: a5 :: a6 :: a7 ::
    h1 :: b0 :: b1 :: b2 :: b3 ::
    h2 :: v :: c0 :: c1 :: c2 ::
    h3 :: w :: d0 :: d1 :: d2 ::
    h4 :: e0 :: e1 :: e2 :: e3 :: e4 :: e5 :: e6 :: e7 :: e8 :: e9 :: e10 :: e11 :: [] =>
    h1 == '-' && h2 == '-' && h3 == '-' && h4 == '-' &&
    v == '4' && isVariantHexDigit w &&
    [a0, a1, a2, a3, a4, a5, a6, a7, b0, b1, b2, b3, c0, c1, c2,
     d0, d1, d2, e0, e1, e2, e3, e4, e5, e6, e7, e8, e9, e10, e11].all
      isLowerHexDigit
  | _ => false

/-- One submission in a sequence: the typed text, the ids and wall-clock
instants of that cycle, and how its gateway call resolves. -/
structure SubmissionInput where
  text : String
  now1 : Int
  uid : String
  now2 : Int
  aid : String
  out : GatewayOutcome

/-- A sequence of submissions within one component lifetime: each one
types its text (`ngModel` binding) and runs a full submission cycle;
the issued gateway requests are collected in order. -/
def runSubmissions (tz : Timezone) : List SubmissionInput → ChatState → ChatState × List ChatRequest
  | [], st => (st, [])
  | i :: rest, st =>
    let r := submitCycle tz i.now1 i.uid i.now2 i.aid i.out (setInput i.text st)
    let tail := runSubmissions tz rest r.state
    (tail.1, r.calls ++ tail.2)

/-! ## Statement-level predicates and concrete fixtures -/

/-- The day-boundary condition of the specification: the sequence was
empty before the append, or the new message's local calendar date differs
from the immediately preceding message's. -/
def newDayExpected (tz : Timezone) (msgs : List Message) (t : Int) : Prop :=
  match msgs.getLast? with
  | none => True
  | some lastMessage => tz.localDate t ≠ tz.localDate lastMessage.timestamp

/-- A concrete timezone for evaluating witnesses: a fixed-offset clock
with 86,400,000 ms days. -/
def tzW : Timezone :=
  { localDate := fun t => { year := 2024, month := 0, day := (t + 864000000) / 86400000 },
    localHour := fun t => ((t / 3600000) % 24).toNat,
    localMinute := fun t => ((t / 60000) % 60).toNat }

/-- A concrete component state for witnesses: idle, with text typed. -/
def stW : ChatState :=
  { initState with messageText := "  hi  ", sessionId := "session-1" }

/-- A concrete incoming message for witnesses. -/
def mW : Message :=
  { id := "m1", senderId := .user, content := some "x", timestamp := 0, time := "00:00" }

/-- A concrete submission for witnesses. -/
def inW : SubmissionInput :=
  { text := "hello", now1 := 0, uid := "u1", now2 := 5, aid := "a1",
    out := .success { response := "ok" } }

/-! ## Theorems -/

/-- The classified message is never the empty string (used by the
component's `error.message || fallback` reasoning). -/
theorem classifyError_ne_empty (e : RawError) : classifyError e ≠ "" := by
  cases e with
  | timeoutError => simp [classifyError]
  | other => simp [classifyError]
  | httpError r =>
    obtain ⟨s, b⟩ := r
    cases b with
    | errorEvent => simp [classifyError]
    | serverBody f =>
      simp only [classifyError]
      split
      · simp
      · split
        · cases f with
          | none => simp
          | some s =>
            by_cases hs : s = "" <;> simp [hs]
        · split <;> simp

/-- C2: every failing gateway call terminates in a classified outcome, not
the raw error: the `catchError` handler logs the raw error and throws a
fresh `Error` whose message is exactly the user-facing message of the one
spec-table category the failure falls into. -/
theorem catchErrorHandler_classifies (e : RawError) :
    (catchErrorHandler e).logged = e ∧
    (catchErrorHandler e).thrown.message
      = categoryMessage (classifyCategory e) (bodyErrorField e) := by
  refine ⟨rfl, ?_⟩
  show classifyError e = categoryMessage (classifyCategory e) (bodyErrorField e)
  cases e with
  | timeoutError => rfl
  | other => rfl
  | httpError r =>
    obtain ⟨s, b⟩ := r
    cases b with
    | errorEvent => rfl
    | serverBody f =>
      simp only [classifyError, classifyCategory, bodyErrorField]
      split
      · rfl
      · split
        · cases f <;> rfl
        · split <;> rfl

/-- C3: for an HTTP error response with status in [400,500), the classified
message is the body's `error` field when present and non-empty, and the
fixed fallback "Invalid request. Please try again." otherwise. -/
theorem classifyError_clientError (status : Nat) (body : Option String)
    (h400 : 400 ≤ status) (h500 : status < 500) :
    (∀ s, body = some s → s ≠ "" →
        classifyError (.httpError ⟨status, .serverBody body⟩) = s) ∧
    ((body = none ∨ body = some "") →
        classifyError (.httpError ⟨status, .serverBody body⟩)
          = "Invalid request. Please try again.") := by
  have h0 : status ≠ 0 := by omega
  constructor
  · intro s hs hne
    subst hs
    simp [classifyError, h0, h400, h500, hne]
  · rintro (hb | hb) <;> subst hb <;> simp [classifyError, h0, h400, h500]

/-- Witness for C3 at the concrete input of Scenario C: a 404 with no body
`error` field yields exactly the fallback message. -/
theorem classifyError_clientError_witness :
    400 ≤ 404 ∧ 404 < 500 ∧
    classifyError (.httpError ⟨404, .serverBody none⟩)
      = "Invalid request. Please try again." :=
  ⟨by decide, by decide,
    (classifyError_clientError 404 none (by decide) (by decide)).2 (Or.inl rfl)⟩

/-- Every hex digit character of a nibble passes the lowercase-hex test. -/
theorem nibbleToHex_lowerHex : ∀ k : Fin 16, isLowerHexDigit (nibbleToHex k.val) = true := by
  decide

/-- Random nibbles render as lowercase hex digits. -/
theorem nib_lowerHex (r i : Nat) : isLowerHexDigit (nib r i) = true :=
  nibbleToHex_lowerHex ⟨r / 16 ^ i % 16, Nat.mod_lt _ (by norm_num)⟩

/-- The variant nibble renders as one of 8, 9, a, b. -/
theorem variantHex_ok (r : Nat) : isVariantHexDigit (variantHex r) = true := by
  have h : ∀ k : Fin 4, isVariantHexDigit (nibbleToHex (8 + k.val)) = true := by decide
  exact h ⟨r / 16 ^ 30 % 4, Nat.mod_lt _ (by norm_num)⟩

/-- Whatever the random source yields, the generated identifier matches
the UUIDv4 textual pattern. -/
theorem matchesUUIDv4_randomUUID (r : Nat) : matchesUUIDv4 (randomUUID r) = true := by
  simp [matchesUUIDv4, randomUUID, nib_lowerHex, variantHex_ok]

/-- No component operation in a submission cycle writes `sessionId`, and
the one issued request carries the state's `sessionId`. -/
theorem submitCycle_sessionId (tz : Timezone) (now1 : Int) (uid : String) (now2 : Int)
    (aid : String) (out : GatewayOutcome) (st : ChatState) :
    (submitCycle tz now1 uid now2 aid out st).state.sessionId = st.sessionId ∧
    ∀ c ∈ (submitCycle tz now1 uid now2 aid out st).calls, c.session_id = st.sessionId := by
  by_cases h : canSend st
  · cases out with
    | success resp =>
      simp [submitCycle, sendMessageSync, h, onReply, addMessage]
    | failure raw =>
      simp [submitCycle, sendMessageSync, h, onError, handleError, addMessage]
  · simp [submitCycle, sendMessageSync, h]

/-- Across any sequence of submissions, the component's `sessionId` is
unchanged and every issued request carries it. -/
theorem runSubmissions_sessionId (tz : Timezone) (inputs : List SubmissionInput) :
    ∀ st : ChatState,
      (runSubmissions tz inputs st).1.sessionId = st.sessionId ∧
      ∀ c ∈ (runSubmissions tz inputs st).2, c.session_id = st.sessionId := by
  induction inputs with
  | nil => intro st; simp [runSubmissions]
  | cons i rest ih =>
    intro st
    obtain ⟨hc1, hc2⟩ := submitCycle_sessionId tz i.now1 i.uid i.now2 i.aid i.out (setInput i.text st)
    have hset : (setInput i.text st).sessionId = st.sessionId := rfl
    obtain ⟨ih1, ih2⟩ :=
      ih (submitCycle tz i.now1 i.uid i.now2 i.aid i.out (setInput i.text st)).state
    refine ⟨?_, ?_⟩
    · show (runSubmissions tz rest _).1.sessionId = st.sessionId
      rw [ih1, hc1, hset]
    · intro c hcmem
      have : c ∈ (submitCycle tz i.now1 i.uid i.now2 i.aid i.out (setInput i.text st)).calls
          ∨ c ∈ (runSubmissions tz rest
              (submitCycle tz i.now1 i.uid i.now2 i.aid i.out (setInput i.text st)).state).2 := by
        simpa [runSubmissions] using hcmem
      rcases this with hmem | hmem
      · rw [hc2 c hmem, hset]
      · rw [ih2 c hmem, hc1, hset]

/-- C9: all gateway invocations of one component lifetime carry the single
session identifier generated at service construction, and that identifier
matches the UUID version-4 textual pattern. -/
theorem session_stability (tz : Timezone) (r : Nat) (inputs : List SubmissionInput) :
    (runSubmissions tz inputs (ngOnInit ⟨generateSessionId r⟩ initState)).1.sessionId
      = generateSessionId r ∧
    (∀ c ∈ (runSubmissions tz inputs (ngOnInit ⟨generateSessionId r⟩ initState)).2,
        c.session_id = generateSessionId r) ∧
    matchesUUIDv4 (generateSessionId r) = true := by
  obtain ⟨h1, h2⟩ := runSubmissions_sessionId tz inputs (ngOnInit ⟨generateSessionId r⟩ initState)
  have hsid : (ngOnInit ⟨generateSessionId r⟩ initState).sessionId = generateSessionId r := rfl
  exact ⟨by rw [h1, hsid], fun c hc => by rw [h2 c hc, hsid], matchesUUIDv4_randomUUID r⟩

/-- Witness for C9: a singleton submission sequence under the concrete
clock, evaluated at random source 0. -/
theorem session_stability_witness : matchesUUIDv4 (generateSessionId 0) = true :=
  (session_stability tzW 0 [inW]).2.2

/-- The en-US date rendering always contains a comma. -/
theorem comma_mem_toLocaleDateStringEnUS (d : CalendarDate) :
    ',' ∈ (toLocaleDateStringEnUS d).data := by
  simp only [toLocaleDateStringEnUS, String.data_append, List.append_assoc]
  refine List.mem_append_right _ (List.mem_append_right _ ?_)
  refine List.mem_append_right _ (List.mem_append_left _ ?_)
  decide

/-- The en-US date rendering never equals a comma-free string such as
"Today", "Yesterday", or the empty string. -/
theorem toLocaleDateStringEnUS_ne (d : CalendarDate) (s : String) (hs : ',' ∉ s.data) :
    toLocaleDateStringEnUS d ≠ s := by
  intro h
  exact hs (h ▸ comma_mem_toLocaleDateStringEnUS d)

/-- A day separator label is never the empty string. -/
theorem formatDateLabel_ne_empty (tz : Timezone) (nowMs dateMs : Int) :
    formatDateLabel tz nowMs dateMs ≠ "" := by
  unfold formatDateLabel
  split
  · simp
  · split
    · simp
    · exact toLocaleDateStringEnUS_ne _ _ (by decide)

/-- C10: `formatDateLabel` returns "Today" exactly when the instant's
local date equals the current instant's; otherwise "Yesterday" exactly
when it equals the local date of the instant precisely 86,400,000 ms
before now — a fixed 24-hour offset, not a calendar-day decrement — and
the en-US "Mon Day, Year" rendering in all remaining cases. -/
theorem formatDateLabel_spec (tz : Timezone) (nowMs dateMs : Int) :
    (formatDateLabel tz nowMs dateMs = "Today" ↔
      tz.localDate dateMs = tz.localDate nowMs) ∧
    (formatDateLabel tz nowMs dateMs = "Yesterday" ↔
      tz.localDate dateMs ≠ tz.localDate nowMs ∧
      tz.localDate dateMs = tz.localDate (nowMs - 86400000)) ∧
    (tz.localDate dateMs ≠ tz.localDate nowMs →
      tz.localDate dateMs ≠ tz.localDate (nowMs - 86400000) →
      formatDateLabel tz nowMs dateMs = toLocaleDateStringEnUS (tz.localDate dateMs)) := by
  by_cases h1 : tz.localDate dateMs = tz.localDate nowMs
  · simp [formatDateLabel, h1]
  · by_cases h2 : tz.localDate dateMs = tz.localDate (nowMs - 86400000)
    · simp [formatDateLabel, h1, h2]
    · have hT := toLocaleDateStringEnUS_ne (tz.localDate dateMs) "Today" (by decide)
      have hY := toLocaleDateStringEnUS_ne (tz.localDate dateMs) "Yesterday" (by decide)
      simp [formatDateLabel, h1, h2, hT, hY]

/-- Witness for C10: under the concrete clock, the instant one day before
now is labelled "Yesterday". -/
theorem formatDateLabel_spec_witness : formatDateLabel tzW 0 (-86400000) = "Yesterday" :=
  (formatDateLabel_spec tzW 0 (-86400000)).2.1.mpr ⟨by decide, by decide⟩

/-- The decoration step changes only `isNewDay` and `dateLabel`. -/
theorem decorate_fields (tz : Timezone) (nowMs : Int) (msgs : List Message) (m : Message) :
    (decorate tz nowMs msgs m).senderId = m.senderId ∧
    (decorate tz nowMs msgs m).content = m.content ∧
    (decorate tz nowMs msgs m).timestamp = m.timestamp ∧
    (decorate tz nowMs msgs m).id = m.id := by
  cases hlast : msgs.getLast? with
  | none => simp [decorate, hlast]
  | some lastMessage =>
    simp only [decorate, hlast]
    split <;> simp

/-- C5: a message appended via `addMessage` (carrying no pre-set
`isNewDay`/`dateLabel`, as both construction sites do) gets
`isNewDay = true` with a non-empty `dateLabel` exactly when the list was
empty or its local date differs from the preceding message's, and keeps
both fields absent when the dates agree — for every state, so the
invariant is preserved by every append. -/
theorem addMessage_day_boundary (tz : Timezone) (nowMs : Int) (st : ChatState) (m : Message)
    (hb : m.isNewDay = none) (hl : m.dateLabel = none) :
    (addMessage tz nowMs st m).messages
      = st.messages ++ [decorate tz nowMs st.messages m] ∧
    (newDayExpected tz st.messages m.timestamp →
      (decorate tz nowMs st.messages m).isNewDay = some true ∧
      ∃ lbl, (decorate tz nowMs st.messages m).dateLabel = some lbl ∧ lbl ≠ "") ∧
    (¬ newDayExpected tz st.messages m.timestamp →
      (decorate tz nowMs st.messages m).isNewDay = none ∧
      (decorate tz nowMs st.messages m).dateLabel = none) := by
  refine ⟨rfl, ?_, ?_⟩
  · intro hnew
    cases hlast : st.messages.getLast? with
    | none =>
      have hdec : decorate tz nowMs st.messages m
          = { m with isNewDay := some true,
                     dateLabel := some (formatDateLabel tz nowMs m.timestamp) } := by
        simp [decorate, hlast]
      rw [hdec]
      exact ⟨rfl, formatDateLabel tz nowMs m.timestamp, rfl,
        formatDateLabel_ne_empty tz nowMs m.timestamp⟩
    | some lastMessage =>
      have hne : tz.localDate m.timestamp ≠ tz.localDate lastMessage.timestamp := by
        simpa [newDayExpected, hlast] using hnew
      have hdec : decorate tz nowMs st.messages m
          = { m with isNewDay := some true,
                     dateLabel := some (formatDateLabel tz nowMs m.timestamp) } := by
        simp [decorate, hlast, Ne.symm hne]
      rw [hdec]
      exact ⟨rfl, formatDateLabel tz nowMs m.timestamp, rfl,
        formatDateLabel_ne_empty tz nowMs m.timestamp⟩
  · intro hnot
    cases hlast : st.messages.getLast? with
    | none =>
      simp [newDayExpected, hlast] at hnot
    | some lastMessage =>
      have heq : tz.localDate lastMessage.timestamp = tz.localDate m.timestamp := by
        have h' : ¬ tz.localDate m.timestamp ≠ tz.localDate lastMessage.timestamp := by
          simpa [newDayExpected, hlast] using hnot
        exact (not_not.mp h').symm
      have hdec : decorate tz nowMs st.messages m = m := by
        simp [decorate, hlast, heq]
      rw [hdec]
      exact ⟨hb, hl⟩

/-- Witness for C5: appending to the empty list marks a day boundary. -/
theorem addMessage_day_boundary_witness :
    (decorate tzW 0 initState.messages mW).isNewDay = some true :=
  ((addMessage_day_boundary tzW 0 initState mW rfl rfl).2.1 trivial).1

/-- A string has positive length exactly when it is not the empty
string. -/
theorem length_pos_iff_ne_empty (s : String) : 0 < s.length ↔ s ≠ "" := by
  rw [String.length, List.length_pos]
  constructor
  · intro h he
    exact h (by simp [he])
  · intro h hd
    exact h (String.ext (by simpa using hd))

/-- The value of `sendMessageSync` on an admissible state: busy flags set,
the decorated user message appended, the buffer cleared, and the request
`(trimmed, sessionId)` issued. -/
theorem sendMessageSync_of_canSend (tz : Timezone) (now1 : Int) (uid : String) (st : ChatState)
    (h : canSend st = true) :
    sendMessageSync tz now1 uid st =
      ({ st with isSending := true, isTyping := true,
                 messages := st.messages ++
                   [decorate tz now1 st.messages
                     { id := uid, senderId := .user, content := some (jsTrim st.messageText),
                       timestamp := now1, time := formatTime tz now1 }],
                 shouldScroll := true, messageText := "" },
       some { message := (jsTrim st.messageText), session_id := st.sessionId }) := by
  simp [sendMessageSync, h, addMessage]

/-- C6: `canSend` is true exactly when the trimmed buffer is non-empty and
no send is in flight, and on an empty-or-whitespace buffer `sendMessage`
mutates nothing and issues no gateway call. -/
theorem canSend_spec (tz : Timezone) (now1 : Int) (uid : String) (st : ChatState) :
    (canSend st = true ↔ (jsTrim st.messageText) ≠ "" ∧ st.isSending = false) ∧
    ((jsTrim st.messageText) = "" → sendMessageSync tz now1 uid st = (st, none)) := by
  constructor
  · simp [canSend, length_pos_iff_ne_empty]
  · intro hempty
    have hcs : canSend st = false := by
      simp [canSend, hempty]
    simp [sendMessageSync, hcs]

/-- Witness for C6: a whitespace-only buffer is rejected without
mutation. -/
theorem canSend_spec_witness :
    sendMessageSync tzW 0 "u1" (setInput "   " initState) = (setInput "   " initState, none) :=
  (canSend_spec tzW 0 "u1" (setInput "   " initState)).2 (by decide)

/-- C7: an admitted submission appends a user message whose content is the
trimmed buffer and invokes the gateway with the trimmed text and the
session id. -/
theorem trim_law (tz : Timezone) (now1 : Int) (uid : String) (st : ChatState)
    (h : canSend st = true) :
    (sendMessageSync tz now1 uid st).2
      = some { message := (jsTrim st.messageText), session_id := st.sessionId } ∧
    ∃ userMessage,
      (sendMessageSync tz now1 uid st).1.messages = st.messages ++ [userMessage] ∧
      userMessage.senderId = .user ∧
      userMessage.content = some (jsTrim st.messageText) := by
  rw [sendMessageSync_of_canSend tz now1 uid st h]
  refine ⟨rfl, decorate tz now1 st.messages
    { id := uid, senderId := .user, content := some (jsTrim st.messageText),
      timestamp := now1, time := formatTime tz now1 }, rfl, ?_, ?_⟩
  · exact (decorate_fields tz now1 st.messages _).1
  · exact (decorate_fields tz now1 st.messages _).2.1

/-- Witness for C7: submitting "  hi  " sends ("hi", session) and appends
content "hi". -/
theorem trim_law_witness :
    (sendMessageSync tzW 0 "u1" stW).2 = some { message := "hi", session_id := "session-1" } :=
  ((trim_law tzW 0 "u1" stW (by decide)).1).trans (by decide)

/-- C8: after typing a non-whitespace string from an idle state, the input
buffer is empty immediately after the synchronous part of `sendMessage`,
and stays empty whatever the gateway outcome later is. -/
theorem input_clearing (tz : Timezone) (now1 : Int) (uid : String) (now2 : Int) (aid : String)
    (s : String) (st : ChatState) (hs : jsTrim s ≠ "") (hidle : st.isSending = false) :
    (sendMessageSync tz now1 uid (setInput s st)).1.messageText = "" ∧
    ∀ out, (submitCycle tz now1 uid now2 aid out (setInput s st)).state.messageText = "" := by
  have hcan : canSend (setInput s st) = true := by
    simp [canSend, setInput, hidle, length_pos_iff_ne_empty, hs]
  constructor
  · rw [sendMessageSync_of_canSend _ _ _ _ hcan]
  · intro out
    cases out with
    | success resp =>
      simp [submitCycle, sendMessageSync_of_canSend _ _ _ _ hcan, onReply, addMessage]
    | failure raw =>
      simp [submitCycle, sendMessageSync_of_canSend _ _ _ _ hcan, onError]

/-- Witness for C8: the concrete buffer "hello" is cleared by a
submission whose call later fails. -/
theorem input_clearing_witness :
    (submitCycle tzW 0 "u1" 5 "a1" (.failure .timeoutError)
        (setInput "hello" initState)).state.messageText = "" :=
  (input_clearing tzW 0 "u1" 5 "a1" "hello" initState (by decide) rfl).2
    (.failure .timeoutError)

/-- C4: when the gateway call of an admitted submission fails, the only
appended message is the user's own, exactly one toast is raised and it
carries the classified user-facing message, and both busy flags are reset
to false. -/
theorem failure_non_mutation (tz : Timezone) (now1 : Int) (uid : String) (now2 : Int)
    (aid : String) (raw : RawError) (st : ChatState) (h : canSend st = true) :
    (∃ userMessage,
      (submitCycle tz now1 uid now2 aid (.failure raw) st).state.messages
        = st.messages ++ [userMessage] ∧
      userMessage.senderId = .user ∧
      userMessage.content = some (jsTrim st.messageText)) ∧
    (submitCycle tz now1 uid now2 aid (.failure raw) st).toasts
      = [{ severity := "error", summary := "Error",
           detail := classifyError raw, life := 5000 }] ∧
    (submitCycle tz now1 uid now2 aid (.failure raw) st).state.isSending = false ∧
    (submitCycle tz now1 uid now2 aid (.failure raw) st).state.isTyping = false := by
  have hcycle : submitCycle tz now1 uid now2 aid (.failure raw) st =
      { state := { st with
          isSending := false, isTyping := false,
          messages := st.messages ++
            [decorate tz now1 st.messages
              { id := uid, senderId := .user, content := some (jsTrim st.messageText),
                timestamp := now1, time := formatTime tz now1 }],
          shouldScroll := true, messageText := "" },
        calls := [{ message := (jsTrim st.messageText), session_id := st.sessionId }],
        toasts := [{ severity := "error", summary := "Error",
                     detail := classifyError raw, life := 5000 }] } := by
    simp [submitCycle, sendMessageSync_of_canSend _ _ _ _ h, onError, handleError,
      catchErrorHandler, classifyError_ne_empty raw]
  rw [hcycle]
  exact ⟨⟨decorate tz now1 st.messages _, rfl,
      (decorate_fields tz now1 st.messages _).1,
      (decorate_fields tz now1 st.messages _).2.1⟩,
    rfl, rfl, rfl⟩

/-- Witness for C4: a timed-out call from the concrete idle state raises
exactly the timeout toast. -/
theorem failure_non_mutation_witness :
    (submitCycle tzW 0 "u1" 5 "a1" (.failure .timeoutError) stW).toasts
      = [{ severity := "error", summary := "Error",
           detail := "Request timed out. Please try again.", life := 5000 }] :=
  (failure_non_mutation tzW 0 "u1" 5 "a1" .timeoutError stW (by decide)).2.1

/-- C1 (code bug): on a successful reply `{response: "hi there"}` the
component stores `response.message` — a property `ChatResponse` does not
declare — so the appended assistant message's content is undefined
(`none`), not "hi there"; it even fails the repository's own `isMessage`
type guard.  The flags are reset as specified. -/
theorem assistant_content_bug :
    ((submitCycle tzW 0 "u1" 1000 "a1" (.success { response := "hi there" })
        { initState with sessionId := "session-1", messageText := "Hello" }).state.messages.map
      (fun m => m.content)) = [some "Hello", none] ∧
    (∀ m ∈ (submitCycle tzW 0 "u1" 1000 "a1" (.success { response := "hi there" })
        { initState with sessionId := "session-1", messageText := "Hello" }).state.messages,
      m.senderId = .ai → m.content ≠ some "hi there") ∧
    ((submitCycle tzW 0 "u1" 1000 "a1" (.success { response := "hi there" })
        { initState with sessionId := "session-1", messageText := "Hello" }).state.messages.all
      isMessage) = false ∧
    (submitCycle tzW 0 "u1" 1000 "a1" (.success { response := "hi there" })
        { initState with sessionId := "session-1", messageText := "Hello" }).state.isSending
      = false ∧
    (submitCycle tzW 0 "u1" 1000 "a1" (.success { response := "hi there" })
        { initState with sessionId := "session-1", messageText := "Hello" }).state.isTyping
      = false := by
  decide

end ChatApp
